import Mathlib

/-!
Verification of `packages/cli/src/generators/drizzle.ts` (better-auth):
a shallow embedding of the Drizzle schema generator and proofs about it.

The generator is a pure text-generation routine over an in-memory schema;
the two external effects of the original (the `existsSync` probe and the
prettier formatting pass) are modelled as an input boolean and the identity,
respectively, since both are outside this module's core per the spec.
-/

namespace Drizzle

/-- The three supported backends (`adapter.options?.provider`). -/
inductive DbType
  | sqlite
  | mysql
  | pg
deriving DecidableEq, Repr

/-- The string name of a backend, as interpolated into the generated text. -/
def dbName : DbType → String
  | DbType.sqlite => "sqlite"
  | DbType.mysql => "mysql"
  | DbType.pg => "pg"

/-- Lines 11-16 of drizzle.ts: `convertToSnakeCase`. The regex replace
`/[A-Z]/g` is modelled by `snakeChars` over the character list. -/
def snakeChars : List Char → List Char
  | [] => []
  | c :: cs =>
    if c.isUpper then '_' :: c.toLower :: snakeChars cs else c :: snakeChars cs

def convertToSnakeCase (str : String) (camelCase : Bool) : String :=
  if camelCase then str else String.mk (snakeChars str.data)

/-- A field's `references` attribute. -/
structure Reference where
  model : String
  field : String
  onDelete : Option String
deriving DecidableEq, Repr

/-- A field's `defaultValue`: a function source text, a string, a number
or a boolean (the JS `typeof` cases distinguished by the generator). -/
inductive DefaultValue
  | func (src : String)
  | str (s : String)
  | num (n : Int)
  | bool (b : Bool)
deriving DecidableEq, Repr

/-- JavaScript truthiness of `attr.defaultValue` (line 151 tests the raw
value, so `false`, `0` and the empty string count as absent). -/
def jsTruthy : Option DefaultValue → Bool
  | none => false
  | some (DefaultValue.func _) => true
  | some (DefaultValue.str s) => decide (s ≠ "")
  | some (DefaultValue.num n) => decide (n ≠ 0)
  | some (DefaultValue.bool b) => b

/-- The closed field-type union the source casts `field.type` to. -/
inductive FieldType
  | string
  | number
  | boolean
  | date
  | stringArr
  | numberArr
deriving DecidableEq, Repr

/-- The field attributes the generator consults. -/
structure FieldAttribute where
  type : FieldType
  required : Bool := false
  unique : Bool := false
  bigint : Bool := false
  defaultValue : Option DefaultValue := none
  references : Option Reference := none
deriving DecidableEq, Repr

/-- One logical table: its model name and its fields in insertion order. -/
structure Table where
  modelName : String
  fields : List (String × FieldAttribute)
deriving DecidableEq, Repr

/-- The Drizzle adapter configuration consulted by the generator. -/
structure AdapterConfig where
  provider : Option DbType
  camelCase : Bool := false
  usePlural : Bool := false
deriving DecidableEq, Repr

/-- The error message thrown when the provider is undefined (lines 29-31
and 45-47 of drizzle.ts carry the same text). -/
def providerErrorMsg : String :=
  "Database provider type is undefined during Drizzle schema generation. Please define a `provider` in the Drizzle adapter config. Read more at https://better-auth.com/docs/adapters/drizzle"

/-- Line 50: the test `field.references?.field === \"id\"`. -/
def refsId (field : FieldAttribute) : Bool :=
  match field.references with
  | some r => decide (r.field = "id")
  | none => false

/-- Lines 74-121 of drizzle.ts: the scalar `typeMap` lookup,
`typeMap[type][databaseType]`. -/
def typeMap (databaseType : DbType) (name : String) (field : FieldAttribute) :
    String :=
  match field.type with
    | FieldType.string =>
      match databaseType with
      | DbType.sqlite => "text('" ++ name ++ "')"
      | DbType.pg => "text('" ++ name ++ "')"
      | DbType.mysql =>
        if field.unique then "varchar('" ++ name ++ "', \x7b length: 255 \x7d)"
        else if field.references.isSome then
          "varchar('" ++ name ++ "', \x7b length: 36 \x7d)"
        else "text('" ++ name ++ "')"
    | FieldType.boolean =>
      match databaseType with
      | DbType.sqlite => "integer('" ++ name ++ "', \x7b mode: 'boolean' \x7d)"
      | DbType.pg => "boolean('" ++ name ++ "')"
      | DbType.mysql => "boolean('" ++ name ++ "')"
    | FieldType.number =>
      match databaseType with
      | DbType.sqlite => "integer('" ++ name ++ "')"
      | DbType.pg =>
        if field.bigint then "bigint('" ++ name ++ "', \x7b mode: 'number' \x7d)"
        else "integer('" ++ name ++ "')"
      | DbType.mysql =>
        if field.bigint then "bigint('" ++ name ++ "', \x7b mode: 'number' \x7d)"
        else "int('" ++ name ++ "')"
    | FieldType.date =>
      match databaseType with
      | DbType.sqlite => "integer('" ++ name ++ "', \x7b mode: 'timestamp' \x7d)"
      | DbType.pg => "timestamp('" ++ name ++ "')"
      | DbType.mysql => "timestamp('" ++ name ++ "')"
    | FieldType.numberArr =>
      match databaseType with
      | DbType.sqlite => ("integer('" ++ name ++ "')") ++ ".array()"
      | DbType.pg =>
        if field.bigint then
          ("bigint('" ++ name ++ "', \x7b mode: 'number' \x7d)") ++ ".array()"
        else ("integer('" ++ name ++ "')") ++ ".array()"
      | DbType.mysql =>
        if field.bigint then
          ("bigint('" ++ name ++ "', \x7b mode: 'number' \x7d)") ++ ".array()"
        else ("int('" ++ name ++ "')") ++ ".array()"
    | FieldType.stringArr =>
      match databaseType with
      | DbType.sqlite => ("text('" ++ name ++ "')") ++ ".array()"
      | DbType.pg => ("text('" ++ name ++ "')") ++ ".array()"
      | DbType.mysql => ("text('" ++ name ++ "')") ++ ".array()"

/-- Lines 49-121 of drizzle.ts: the body of `getType` once `databaseType`
is known to be defined. The inner `if (field.references.field)` at line 61
is vacuously true under the line-50 guard (the field equals "id"), so the
reference branch reduces to the mysql/other split. -/
def getTypeDefined (databaseType : DbType) (camelCase useNumberId : Bool)
    (name0 : String) (field : FieldAttribute) : String :=
  let name := convertToSnakeCase name0 camelCase
  if refsId field then
    if useNumberId then
      match databaseType with
      | DbType.pg => "integer('" ++ name ++ "')"
      | DbType.mysql => "int('" ++ name ++ "')"
      | DbType.sqlite => "integer('" ++ name ++ "')"
    else if databaseType = DbType.mysql then
      "varchar('" ++ name ++ "', \x7b length: 36 \x7d)"
    else
      "text('" ++ name ++ "')"
  else
    typeMap databaseType name field

/-- Lines 42-122 of drizzle.ts: `getType` as the closure sees it — the
captured `databaseType` is an `Option` and the function re-checks it,
throwing the provider error when it is `none`. -/
def getType (databaseType : Option DbType) (camelCase useNumberId : Bool)
    (name : String) (field : FieldAttribute) : Except String String :=
  match databaseType with
  | none => Except.error providerErrorMsg
  | some db => Except.ok (getTypeDefined db camelCase useNumberId name field)

/-- Lines 223-228 of drizzle.ts: `getModelName`. -/
def getModelName (modelName : String) (usePlural : Bool) : String :=
  if usePlural then modelName ++ "s" else modelName

/-- Line 168: `attr.references.onDelete || \"cascade\"` (truthiness, so an
empty string also falls back to cascade). -/
def onDeleteOf (r : Reference) : String :=
  match r.onDelete with
  | some s => if s = "" then "cascade" else s
  | none => "cascade"

/-- Lines 152-158: the default-value modifier appended to the base type. -/
def defaultModifier : DefaultValue → String
  | DefaultValue.func src => ".$defaultFn(" ++ src ++ ")"
  | DefaultValue.str s => ".default(\"" ++ s ++ "\")"
  | DefaultValue.num n => ".default(" ++ toString n ++ ")"
  | DefaultValue.bool b => ".default(" ++ (if b then "true" else "false") ++ ")"

/-- The default-value modifier as the spec words it (function reference by
name, quoted literal for text, unquoted literal otherwise), for comparison
with the generator's composition. -/
def specDefaultModifier : DefaultValue → String
  | DefaultValue.func src => ".$defaultFn(" ++ src ++ ")"
  | DefaultValue.str s => ".default(\"" ++ s ++ "\")"
  | DefaultValue.num n => ".default(" ++ toString n ++ ")"
  | DefaultValue.bool b => ".default(" ++ (if b then "true" else "false") ++ ")"

/-- Lines 151-171: the modifier chain appended after the base type fragment
(default, notNull, unique, references, in that order). -/
def withModifiers (base : String) (attr : FieldAttribute) (usePlural : Bool) :
    String :=
  (if jsTruthy attr.defaultValue then
    base ++
      (match attr.defaultValue with
       | some dv => defaultModifier dv
       | none => "")
  else base) ++
    (if attr.required then ".notNull()" else "") ++
    (if attr.unique then ".unique()" else "") ++
    (match attr.references with
     | some r =>
       ".references(()=> " ++ getModelName r.model usePlural ++ "." ++ r.field ++
         ", \x7b onDelete: '" ++ onDeleteOf r ++ "' \x7d)"
     | none => "")

/-- One emitted field line, `key: fragment.modifiers…`, backend known. -/
def fieldLine (db : DbType) (camelCase usePlural useNumberId : Bool)
    (fieldKey : String) (attr : FieldAttribute) : String :=
  fieldKey ++ ": " ++
    withModifiers (getTypeDefined db camelCase useNumberId fieldKey attr) attr
      usePlural

/-- One emitted field line through the closure's fallible `getType`. -/
def fieldLineE (databaseType : Option DbType) (camelCase usePlural useNumberId : Bool)
    (fieldKey : String) (attr : FieldAttribute) : Except String String :=
  match getType databaseType camelCase useNumberId fieldKey attr with
  | Except.error e => Except.error e
  | Except.ok t => Except.ok (fieldKey ++ ": " ++ withModifiers t attr usePlural)

/-- All field lines of a table, sequentially, failing on the first error
(mirrors the `Object.keys(fields).map(...)` body at lines 147-172). -/
def fieldLinesE (databaseType : Option DbType)
    (camelCase usePlural useNumberId : Bool) :
    List (String × FieldAttribute) → Except String (List String)
  | [] => Except.ok []
  | kv :: rest =>
    match fieldLineE databaseType camelCase usePlural useNumberId kv.1 kv.2 with
    | Except.error e => Except.error e
    | Except.ok l =>
      match fieldLinesE databaseType camelCase usePlural useNumberId rest with
      | Except.error e => Except.error e
      | Except.ok ls => Except.ok (l :: ls)

/-- Lines 124-140 of drizzle.ts: the primary-key fragment. -/
def primaryKeyId (databaseType : DbType) (useNumberId : Bool) : String :=
  if useNumberId then
    if databaseType = DbType.pg then "serial(\"id\").primaryKey()"
    else "int(\"id\").autoincrement.primaryKey()"
  else
    if databaseType = DbType.mysql then
      "varchar('id', \x7b length: 36 \x7d).primaryKey()"
    else if databaseType = DbType.pg then "text('id').primaryKey()"
    else "text('id').primaryKey()"

/-- Lines 142-174: the `export const … = …Table(…)` statement, given the
already-emitted field lines (joined with ",\n " as in the source; the
template's literal indentation is immaterial, the output is re-formatted). -/
def tableText (db : DbType) (camelCase usePlural useNumberId : Bool)
    (table : Table) (lines : List String) : String :=
  "export const " ++ getModelName table.modelName usePlural ++ " = " ++
    dbName db ++ "Table(\"" ++
    convertToSnakeCase (getModelName table.modelName usePlural) camelCase ++
    "\", \x7b\n id: " ++ primaryKeyId db useNumberId ++ ",\n " ++
    String.intercalate ",\n " lines ++ "\n\x7d);"

/-- One table's emitted statement, backend known. -/
def tableSchema (db : DbType) (camelCase usePlural useNumberId : Bool)
    (table : Table) : String :=
  tableText db camelCase usePlural useNumberId table
    (table.fields.map fun kv => fieldLine db camelCase usePlural useNumberId kv.1 kv.2)

/-- One table's emitted statement through the fallible per-field path. -/
def tableSchemaE (db : DbType) (camelCase usePlural useNumberId : Bool)
    (table : Table) : Except String String :=
  match fieldLinesE (some db) camelCase usePlural useNumberId table.fields with
  | Except.error e => Except.error e
  | Except.ok lines => Except.ok (tableText db camelCase usePlural useNumberId table lines)

/-- Lines 198-200: does any field anywhere in the schema have `bigint`? -/
def hasBigint (tables : List (String × Table)) : Bool :=
  tables.any fun kv => kv.2.fields.any fun f => f.2.bigint

/-- Lines 204-215 of drizzle.ts: the six import candidates, in source
order, before trimming and dropping blanks. -/
def importCandidates (databaseType : DbType) (tables : List (String × Table))
    (useNumberId : Bool) : List String :=
  [dbName databaseType ++ "Table",
   (match databaseType with
    | DbType.mysql => "varchar, text"
    | DbType.pg => "text"
    | DbType.sqlite => "text"),
   (if hasBigint tables then
      (if databaseType ≠ DbType.sqlite then "bigint" else "")
    else ""),
   (if databaseType ≠ DbType.sqlite then "timestamp, boolean" else ""),
   (if databaseType = DbType.mysql then "int" else "integer"),
   (if useNumberId then
      (if databaseType = DbType.pg then "serial" else "")
    else "")]

/-- JavaScript's `x.trim()`: leading and trailing whitespace removed
(executable form over the character list). -/
def strTrim (s : String) : String :=
  String.mk
    (((s.data.dropWhile Char.isWhitespace).reverse.dropWhile Char.isWhitespace).reverse)

/-- Lines 217-219: candidates trimmed, blanks dropped. -/
def importSymbols (databaseType : DbType) (tables : List (String × Table))
    (useNumberId : Bool) : List String :=
  ((importCandidates databaseType tables useNumberId).map strTrim).filter
    (fun x => x != "")

/-- Lines 187-221 of drizzle.ts: `generateImport`. -/
def generateImport (databaseType : DbType) (tables : List (String × Table))
    (useNumberId : Bool) : String :=
  "import \x7b " ++
    String.intercalate ", " (importSymbols databaseType tables useNumberId) ++
    " \x7d from \"drizzle-orm/" ++ dbName databaseType ++ "-core\";\n"

/-- Lines 37-176: the fold over tables accumulating `code` (pure form). -/
def tablesCode (db : DbType) (camelCase usePlural useNumberId : Bool) :
    List (String × Table) → String → String
  | [], acc => acc
  | kv :: rest, acc =>
    tablesCode db camelCase usePlural useNumberId rest
      (acc ++ "\n" ++ tableSchema db camelCase usePlural useNumberId kv.2 ++ "\n")

/-- The same fold through the fallible per-field path. -/
def tablesCodeE (db : DbType) (camelCase usePlural useNumberId : Bool) :
    List (String × Table) → String → Except String String
  | [], acc => Except.ok acc
  | kv :: rest, acc =>
    match tableSchemaE db camelCase usePlural useNumberId kv.2 with
    | Except.error e => Except.error e
    | Except.ok s =>
      tablesCodeE db camelCase usePlural useNumberId rest (acc ++ "\n" ++ s ++ "\n")

/-- The generator's result record (the prettier pass is modelled as the
identity on `code`; `overwrite` is the `existsSync` probe's result). -/
structure GenResult where
  code : String
  fileName : String
  overwrite : Bool
deriving DecidableEq, Repr

/-- Lines 18-185 of drizzle.ts: `generateDrizzleSchema`. `tables` stands
for `getAuthTables(options)` (external), `useNumberId` for
`options.advanced?.database?.useNumberId`, and `fileExist` for the
`existsSync(filePath)` probe. -/
def generateDrizzleSchema (tables : List (String × Table)) (file : Option String)
    (adapter : AdapterConfig) (useNumberId : Bool) (fileExist : Bool) :
    Except String GenResult :=
  let filePath := file.getD "./auth-schema.ts"
  match adapter.provider with
  | none => Except.error providerErrorMsg
  | some databaseType =>
    match tablesCodeE databaseType adapter.camelCase adapter.usePlural useNumberId
        tables (generateImport databaseType tables useNumberId) with
    | Except.error e => Except.error e
    | Except.ok code =>
      Except.ok { code := code, fileName := filePath, overwrite := fileExist }

/-! ## String helpers for substring facts -/

/-- `strStarts needle hay`: `needle` is a prefix of `hay`. -/
def strStarts : List Char → List Char → Bool
  | [], _ => true
  | _ :: _, [] => false
  | a :: as, b :: bs => (a == b) && strStarts as bs

/-- `strHas needle hay`: `needle` occurs contiguously in `hay`. -/
def strHas (needle : List Char) : List Char → Bool
  | [] => strStarts needle []
  | b :: bs => strStarts needle (b :: bs) || strHas needle bs

/-- Substring test on strings. -/
def containsStr (hay needle : String) : Bool := strHas needle.data hay.data

/-- A field whose references, if any, do not point at an `id` column
(the scalar type-map path's precondition). -/
def refNotId (attr : FieldAttribute) : Prop :=
  ∀ r : Reference, attr.references = some r → r.field ≠ "id"

/-! ## Concrete fixtures -/

/-- The end-to-end scenario's schema: one `user` table with one required
string field `name`. -/
def userTables : List (String × Table) :=
  [("user", { modelName := "user",
              fields := [("name", { type := FieldType.string, required := true })] })]

/-- A pg adapter with default casing options. -/
def adapterPg : AdapterConfig := { provider := some DbType.pg }

/-- An adapter with no provider configured. -/
def adapterNone : AdapterConfig := { provider := none }

/-- The code the generator emits for the end-to-end scenario. -/
def pgUserCode : String :=
  tablesCode DbType.pg false false false userTables
    (generateImport DbType.pg userTables false)

/-- A bigint string field referencing `user.id`. -/
def fldRefId : FieldAttribute :=
  { type := FieldType.string, bigint := true,
    references := some { model := "user", field := "id", onDelete := none } }

/-- A unique `string[]` field. -/
def fldStrArrU : FieldAttribute := { type := FieldType.stringArr, unique := true }

/-- A unique `string` field. -/
def fldStrU : FieldAttribute := { type := FieldType.string, unique := true }

/-- A plain string field with no flags. -/
def fldPlain : FieldAttribute := { type := FieldType.string }

/-- A boolean field whose declared default value is `false`. -/
def fldFlag : FieldAttribute :=
  { type := FieldType.boolean, defaultValue := some (DefaultValue.bool false) }

/-- A required string field with default value "user". -/
def fldRole : FieldAttribute :=
  { type := FieldType.string, required := true,
    defaultValue := some (DefaultValue.str "user") }

/-! ## Helper lemmas -/

theorem snakeChars_eq (l : List Char) :
    snakeChars l = l.flatMap (fun c => if c.isUpper then ['_', c.toLower] else [c]) := by
  induction l with
  | nil => rfl
  | cons c cs ih => by_cases h : c.isUpper <;> simp [snakeChars, h, ih]

theorem refNotId_refsId {attr : FieldAttribute} (h : refNotId attr) :
    refsId attr = false := by
  unfold refsId
  cases href : attr.references with
  | none => rfl
  | some r => simp [h r href]

theorem getTypeDefined_notRef (db : DbType) (camelCase useNumberId : Bool)
    (name : String) (attr : FieldAttribute) (hrf : refsId attr = false) :
    getTypeDefined db camelCase useNumberId name attr =
      typeMap db (convertToSnakeCase name camelCase) attr := by
  simp [getTypeDefined, hrf]

theorem fieldLinesE_ok (db : DbType) (camelCase usePlural useNumberId : Bool)
    (fs : List (String × FieldAttribute)) :
    fieldLinesE (some db) camelCase usePlural useNumberId fs =
      Except.ok (fs.map fun kv =>
        fieldLine db camelCase usePlural useNumberId kv.1 kv.2) := by
  induction fs with
  | nil => rfl
  | cons kv rest ih => simp [fieldLinesE, fieldLineE, getType, ih, fieldLine]

theorem tableSchemaE_ok (db : DbType) (camelCase usePlural useNumberId : Bool)
    (t : Table) :
    tableSchemaE db camelCase usePlural useNumberId t =
      Except.ok (tableSchema db camelCase usePlural useNumberId t) := by
  simp [tableSchemaE, fieldLinesE_ok, tableSchema]

theorem tablesCodeE_ok (db : DbType) (camelCase usePlural useNumberId : Bool)
    (ts : List (String × Table)) (acc : String) :
    tablesCodeE db camelCase usePlural useNumberId ts acc =
      Except.ok (tablesCode db camelCase usePlural useNumberId ts acc) := by
  induction ts generalizing acc with
  | nil => rfl
  | cons kv rest ih => simp [tablesCodeE, tablesCode, tableSchemaE_ok, ih]

/-! ## Claim theorems -/

/-- C1: the generator raises exactly one kind of error, the
missing-provider configuration error. With no provider it fails with that
message whatever the schema, file and options (so before any import or
table-emission work makes a difference), and with any of the three
providers it succeeds, returning the accumulated code, the defaulted file
path and the overwrite probe's result. -/
theorem generate_error_iff (tables : List (String × Table)) (file : Option String)
    (adapter : AdapterConfig) (useNumberId fileExist : Bool) :
    (adapter.provider = none →
      generateDrizzleSchema tables file adapter useNumberId fileExist =
        Except.error providerErrorMsg) ∧
    (∀ db : DbType, adapter.provider = some db →
      generateDrizzleSchema tables file adapter useNumberId fileExist =
        Except.ok
          { code :=
              tablesCode db adapter.camelCase adapter.usePlural useNumberId
                tables (generateImport db tables useNumberId),
            fileName := file.getD "./auth-schema.ts",
            overwrite := fileExist }) := by
  constructor
  · intro h
    simp [generateDrizzleSchema, h]
  · intro db h
    simp [generateDrizzleSchema, h, tablesCodeE_ok]

/-- Witness for C1: refusal with no provider, success at pg on the
concrete scenario schema. -/
theorem generate_error_iff_witness :
    generateDrizzleSchema userTables none adapterNone false false =
      Except.error providerErrorMsg ∧
    generateDrizzleSchema userTables none adapterPg false false =
      Except.ok
        { code := tablesCode DbType.pg false false false userTables
            (generateImport DbType.pg userTables false),
          fileName := "./auth-schema.ts", overwrite := false } := by
  constructor
  · exact (generate_error_iff userTables none adapterNone false false).1 rfl
  · exact (generate_error_iff userTables none adapterPg false false).2 DbType.pg rfl

/-- C2: a field whose references.field is "id" never takes the scalar
type-map path: whatever its declared type or bigint flag, the fragment is
the primary-key-derived one — integer for pg and sqlite and int for mysql
when useNumberId is set, else varchar(36) for mysql and text otherwise. -/
theorem getType_referencesId (db : DbType) (camelCase useNumberId : Bool)
    (name : String) (attr : FieldAttribute) (r : Reference)
    (href : attr.references = some r) (hid : r.field = "id") :
    getTypeDefined db camelCase useNumberId name attr =
      (if useNumberId then
        match db with
        | DbType.pg => "integer('" ++ convertToSnakeCase name camelCase ++ "')"
        | DbType.mysql => "int('" ++ convertToSnakeCase name camelCase ++ "')"
        | DbType.sqlite => "integer('" ++ convertToSnakeCase name camelCase ++ "')"
      else if db = DbType.mysql then
        "varchar('" ++ convertToSnakeCase name camelCase ++ "', \x7b length: 36 \x7d)"
      else "text('" ++ convertToSnakeCase name camelCase ++ "')") := by
  have h : refsId attr = true := by simp [refsId, href, hid]
  simp [getTypeDefined, h]

/-- Witness for C2: a bigint string field referencing user.id on mysql
maps to varchar(36), not through the string/bigint scalar rules. -/
theorem getType_referencesId_witness :
    getTypeDefined DbType.mysql false false "userId" fldRefId =
      "varchar('user_id', \x7b length: 36 \x7d)" := by
  have h := getType_referencesId DbType.mysql false false "userId" fldRefId
      (Reference.mk "user" "id" none) rfl rfl
  exact h.trans (by decide)

/-- C3: the import list is exactly the six claimed candidates in
enumeration order with blanks dropped, and the surviving symbols are
comma-joined into the import line; bigint appears iff the backend is not
sqlite and some field anywhere has bigint; serial iff pg with useNumberId;
timestamp, boolean iff the backend is not sqlite. -/
theorem importList_spec (db : DbType) (tables : List (String × Table))
    (useNumberId : Bool) :
    importSymbols db tables useNumberId =
      ([dbName db ++ "Table",
        (if db = DbType.mysql then "varchar, text" else "text"),
        (if db ≠ DbType.sqlite ∧ hasBigint tables = true then "bigint" else ""),
        (if db ≠ DbType.sqlite then "timestamp, boolean" else ""),
        (if db = DbType.mysql then "int" else "integer"),
        (if db = DbType.pg ∧ useNumberId = true then "serial" else "")].filter
        (fun x => x != "")) ∧
    generateImport db tables useNumberId =
      "import \x7b " ++
        String.intercalate ", " (importSymbols db tables useNumberId) ++
        " \x7d from \"drizzle-orm/" ++ dbName db ++ "-core\";\n" ∧
    ("bigint" ∈ importSymbols db tables useNumberId ↔
      db ≠ DbType.sqlite ∧ hasBigint tables = true) ∧
    ("serial" ∈ importSymbols db tables useNumberId ↔
      db = DbType.pg ∧ useNumberId = true) ∧
    ("timestamp, boolean" ∈ importSymbols db tables useNumberId ↔
      db ≠ DbType.sqlite) := by
  cases db <;> cases hb : hasBigint tables <;> cases useNumberId <;>
    refine ⟨?_, rfl, ?_, ?_, ?_⟩ <;>
      simp only [importSymbols, importCandidates, hb] <;> decide

set_option maxRecDepth 8192 in
/-- C4 counterexample: the end-to-end scenario's output does not contain
the exact claimed import line — on pg the import statement also names
timestamp, boolean and integer. -/
theorem endToEnd_import_cex :
    generateDrizzleSchema userTables none adapterPg false false =
      Except.ok
        { code := pgUserCode, fileName := "./auth-schema.ts", overwrite := false } ∧
    containsStr pgUserCode
      "import \x7b pgTable, text \x7d from \"drizzle-orm/pg-core\";" = false := by
  refine ⟨?_, by decide⟩
  simp [generateDrizzleSchema, adapterPg, tablesCodeE_ok, pgUserCode]

set_option maxRecDepth 8192 in
/-- C4 amended: for the scenario the generated import line names pgTable,
text, timestamp, boolean and integer from drizzle-orm/pg-core (pg
unconditionally imports the timestamp, boolean and integer symbols); the
output contains the claimed user declaration, the fileName is the default
path, and overwrite is false. -/
theorem endToEnd_pg_user :
    generateDrizzleSchema userTables none adapterPg false false =
      Except.ok
        { code := pgUserCode, fileName := "./auth-schema.ts", overwrite := false } ∧
    pgUserCode =
      "import \x7b pgTable, text, timestamp, boolean, integer \x7d from \"drizzle-orm/pg-core\";\n\nexport const user = pgTable(\"user\", \x7b\n id: text('id').primaryKey(),\n name: text('name').notNull()\n\x7d);\n" ∧
    containsStr pgUserCode
      "import \x7b pgTable, text, timestamp, boolean, integer \x7d from \"drizzle-orm/pg-core\";" = true ∧
    containsStr pgUserCode "export const user = pgTable(\"user\"" = true ∧
    containsStr pgUserCode "id: text('id').primaryKey()," = true ∧
    containsStr pgUserCode "name: text('name').notNull()" = true := by
  refine ⟨?_, by decide, by decide, by decide, by decide, by decide⟩
  simp [generateDrizzleSchema, adapterPg, tablesCodeE_ok, pgUserCode]

/-- C5 counterexample: on mysql a unique string[] field's fragment is not
its scalar mapping (varchar 255, per the unique rule) with .array()
appended — the array path always emits text. -/
theorem arrayType_mysql_cex :
    fldStrArrU = { fldStrU with type := FieldType.stringArr } ∧
    getTypeDefined DbType.mysql false false "a" fldStrArrU = "text('a').array()" ∧
    getTypeDefined DbType.mysql false false "a" fldStrU =
      "varchar('a', \x7b length: 255 \x7d)" ∧
    getTypeDefined DbType.mysql false false "a" fldStrArrU ≠
      getTypeDefined DbType.mysql false false "a" fldStrU ++ ".array()" := by
  exact ⟨rfl, by decide, by decide, by decide⟩

/-- C5 amended: for a field not referencing an id column, number[] maps to
the number scalar fragment of the same field with .array() appended on all
three backends (bigint rules included); string[] always maps to
text(name).array() on all three backends — so it equals the string scalar
fragment with .array() appended on sqlite and pg, while on mysql the
unique/references varchar rules are ignored by the array path. -/
theorem arrayType_spec (db : DbType) (camelCase useNumberId : Bool)
    (name : String) (attr : FieldAttribute) (h : refNotId attr) :
    getTypeDefined db camelCase useNumberId name
        { attr with type := FieldType.numberArr } =
      getTypeDefined db camelCase useNumberId name
        { attr with type := FieldType.number } ++ ".array()" ∧
    getTypeDefined db camelCase useNumberId name
        { attr with type := FieldType.stringArr } =
      "text('" ++ convertToSnakeCase name camelCase ++ "')" ++ ".array()" ∧
    (db = DbType.sqlite ∨ db = DbType.pg →
      getTypeDefined db camelCase useNumberId name
          { attr with type := FieldType.stringArr } =
        getTypeDefined db camelCase useNumberId name
          { attr with type := FieldType.string } ++ ".array()") := by
  have hrf2 : ∀ t : FieldType, refsId { attr with type := t } = false :=
    fun _ => refNotId_refsId h
  refine ⟨?_, ?_, ?_⟩
  · rw [getTypeDefined_notRef _ _ _ _ _ (hrf2 _),
      getTypeDefined_notRef _ _ _ _ _ (hrf2 _)]
    cases db <;> by_cases hb : attr.bigint <;> simp [typeMap, hb]
  · rw [getTypeDefined_notRef _ _ _ _ _ (hrf2 _)]
    cases db <;> simp [typeMap]
  · rintro (hdb | hdb) <;> subst hdb <;>
      rw [getTypeDefined_notRef _ _ _ _ _ (hrf2 _),
        getTypeDefined_notRef _ _ _ _ _ (hrf2 _)] <;>
      simp [typeMap]

/-- Witness for C5 amended: a plain number[] field on mysql equals the
number scalar fragment with .array() appended. -/
theorem arrayType_spec_witness :
    getTypeDefined DbType.mysql false false "tags"
        { fldPlain with type := FieldType.numberArr } =
      getTypeDefined DbType.mysql false false "tags"
        { fldPlain with type := FieldType.number } ++ ".array()" :=
  (arrayType_spec DbType.mysql false false "tags" fldPlain
    (fun _ hr => Option.noConfusion hr)).1

/-- C6 counterexample: a field whose declared defaultValue is the boolean
false is "present" yet gets no default modifier — line 151 tests JS
truthiness, so false, 0 and the empty string are skipped. -/
theorem defaultValue_false_cex :
    fldFlag.defaultValue.isSome = true ∧
    fieldLine DbType.pg false false false "flag" fldFlag = "flag: boolean('flag')" ∧
    containsStr (fieldLine DbType.pg false false false "flag" fldFlag)
      ".default" = false := by
  exact ⟨rfl, by decide, by decide⟩

/-- C6 amended: for a field whose defaultValue is present and truthy (not
false, 0 or the empty string), the emitted column expression is the base
type fragment followed directly by the default modifier — $defaultFn for a
function, a quoted .default for a string, an unquoted .default otherwise —
then notNull, unique and references modifiers in exactly that order. -/
theorem defaultValue_modifier (db : DbType) (camelCase usePlural useNumberId : Bool)
    (key : String) (attr : FieldAttribute) (dv : DefaultValue)
    (hdv : attr.defaultValue = some dv) (ht : jsTruthy attr.defaultValue = true) :
    fieldLine db camelCase usePlural useNumberId key attr =
      key ++ ": " ++
        (getTypeDefined db camelCase useNumberId key attr ++
          specDefaultModifier dv ++
          (if attr.required then ".notNull()" else "") ++
          (if attr.unique then ".unique()" else "") ++
          (match attr.references with
           | some r =>
             ".references(()=> " ++ getModelName r.model usePlural ++ "." ++
               r.field ++ ", \x7b onDelete: '" ++ onDeleteOf r ++ "' \x7d)"
           | none => "")) := by
  unfold fieldLine withModifiers
  rw [hdv] at ht ⊢
  rw [if_pos ht]
  cases dv <;> rfl

/-- Witness for C6 amended: a required string field with default "user"
emits the quoted default then notNull, in order. -/
theorem defaultValue_modifier_witness :
    fieldLine DbType.pg false false false "role" fldRole =
      "role: text('role').default(\"user\").notNull()" := by
  have h := defaultValue_modifier DbType.pg false false false "role" fldRole
      (DefaultValue.str "user") rfl rfl
  exact h.trans (by decide)

/-- C7: primary-key selection is total over backend and useNumberId and
depends on nothing else: serial for pg and int autoincrement for sqlite and
mysql when useNumberId, else varchar(36) for mysql and text for sqlite and
pg. -/
theorem primaryKey_total :
    primaryKeyId DbType.pg true = "serial(\"id\").primaryKey()" ∧
    primaryKeyId DbType.sqlite true = "int(\"id\").autoincrement.primaryKey()" ∧
    primaryKeyId DbType.mysql true = "int(\"id\").autoincrement.primaryKey()" ∧
    primaryKeyId DbType.mysql false =
      "varchar('id', \x7b length: 36 \x7d).primaryKey()" ∧
    primaryKeyId DbType.sqlite false = "text('id').primaryKey()" ∧
    primaryKeyId DbType.pg false = "text('id').primaryKey()" :=
  ⟨rfl, rfl, rfl, rfl, rfl, rfl⟩

/-- C8: the identifier converter is pure and total: with camelCase it is
the identity; otherwise every (ASCII) uppercase letter is replaced by an
underscore followed by its lowercase form and nothing else changes; and
the three specified examples hold. -/
theorem convertToSnakeCase_spec :
    (∀ s : String, convertToSnakeCase s true = s) ∧
    (∀ s : String, (convertToSnakeCase s false).data =
      s.data.flatMap (fun c => if c.isUpper then ['_', c.toLower] else [c])) ∧
    convertToSnakeCase "userId" false = "user_id" ∧
    convertToSnakeCase "userId" true = "userId" ∧
    convertToSnakeCase "id" false = "id" := by
  refine ⟨fun s => rfl, fun s => ?_, by decide, rfl, by decide⟩
  simp [convertToSnakeCase, snakeChars_eq]

/-- C9: once the top-level provider guard has passed, the defensive check
inside the per-field type mapper is unreachable: with a defined backend
every getType call returns ok, and the whole per-field pass over any field
list never raises the inner configuration error. -/
theorem innerGuard_unreachable :
    (∀ (db : DbType) (camelCase useNumberId : Bool) (name : String)
        (attr : FieldAttribute),
      getType (some db) camelCase useNumberId name attr =
        Except.ok (getTypeDefined db camelCase useNumberId name attr)) ∧
    (∀ (db : DbType) (camelCase usePlural useNumberId : Bool)
        (fs : List (String × FieldAttribute)),
      fieldLinesE (some db) camelCase usePlural useNumberId fs =
        Except.ok (fs.map fun kv =>
          fieldLine db camelCase usePlural useNumberId kv.1 kv.2)) :=
  ⟨fun _ _ _ _ _ => rfl,
   fun db camelCase usePlural useNumberId fs =>
     fieldLinesE_ok db camelCase usePlural useNumberId fs⟩

/-- C10: with useNumberId and a non-pg backend the primary-key fragment is
the identical int autoincrement string for sqlite and mysql, while the
sqlite import list is always sqliteTable, text, integer — containing
integer and never int — so the sqlite fragment's leading constructor int is
a symbol absent from the import header. -/
theorem sqlite_numberId_symbol_gap :
    primaryKeyId DbType.sqlite true = "int(\"id\").autoincrement.primaryKey()" ∧
    primaryKeyId DbType.mysql true = "int(\"id\").autoincrement.primaryKey()" ∧
    (∀ (tables : List (String × Table)) (useNumberId : Bool),
      importSymbols DbType.sqlite tables useNumberId =
        ["sqliteTable", "text", "integer"] ∧
      "integer" ∈ importSymbols DbType.sqlite tables useNumberId ∧
      "int" ∉ importSymbols DbType.sqlite tables useNumberId) ∧
    strStarts "int(".data (primaryKeyId DbType.sqlite true).data = true := by
  refine ⟨rfl, rfl, fun tables u => ?_, by decide⟩
  have h : importSymbols DbType.sqlite tables u =
      ["sqliteTable", "text", "integer"] := by
    cases hb : hasBigint tables <;> cases u <;>
      simp only [importSymbols, importCandidates, hb] <;> decide
  rw [h]
  exact ⟨rfl, by decide, by decide⟩

end Drizzle
